import Mathlib

/-!
Shallow embedding of the PyStatIQ stock fundamental and price growth analyzer
(src/app.py) together with a verification of its spec.

Modelling conventions:
- A numpy/pandas floating-point value is modelled by PyFloat: an exact
  rational, positive or negative infinity, or NaN.  NaN is the "unavailable"
  marker (the code uses np.nan).  Python truthiness (if value:) maps to
  PyFloat.toBool: bool(0.0) is False, while NaN and the infinities are truthy.
- A transposed statement DataFrame (rows = reporting periods, most recent
  first; columns = line items) is modelled by Statement: an association list
  of named period-value columns together with the row count nrows (len(df));
  columns not modelled here may exist, so nrows is independent of the listed
  columns.  df.get(name, [np.nan])[i] is Statement.getItem: a present column
  is indexed positionally, an absent one yields the one-element default list
  [nan], and an out-of-range index is an exception, modelled by none.
- A raised Python exception anywhere inside the try block of
  get_financial_data is modelled by Option: none is the caught exception path
  (the function returns None and the symbol is skipped by the report loop).
-/

/-! ## Data model -/

/-- A numpy floating-point value: an exact rational, an infinity, or NaN. -/
inductive PyFloat where
  | num (q : ℚ)
  | inf
  | ninf
  | nan
deriving DecidableEq, Repr

namespace PyFloat

/-- Python truthiness of a float: zero is falsy; NaN and infinities are truthy. -/
def toBool : PyFloat → Bool
  | num q => q != 0
  | _ => true

/-- IEEE-style subtraction on float values. -/
def sub : PyFloat → PyFloat → PyFloat
  | nan, _ => nan
  | _, nan => nan
  | num a, num b => num (a - b)
  | num _, inf => ninf
  | num _, ninf => inf
  | inf, num _ => inf
  | inf, inf => nan
  | inf, ninf => inf
  | ninf, num _ => ninf
  | ninf, inf => ninf
  | ninf, ninf => nan

/-- numpy division on float values: division of a nonzero value by zero yields
a signed infinity (a RuntimeWarning, not an exception), 0/0 yields NaN. -/
def div : PyFloat → PyFloat → PyFloat
  | nan, _ => nan
  | _, nan => nan
  | num a, num b =>
      if b ≠ 0 then num (a / b)
      else if 0 < a then inf
      else if a < 0 then ninf
      else nan
  | num _, inf => num 0
  | num _, ninf => num 0
  | inf, num b => if b < 0 then ninf else inf
  | ninf, num b => if b < 0 then inf else ninf
  | inf, inf => nan
  | inf, ninf => nan
  | ninf, inf => nan
  | ninf, ninf => nan

/-- Multiplication by the scalar 100 (the percentage scaling in the source). -/
def mul100 : PyFloat → PyFloat
  | num a => num (a * 100)
  | inf => inf
  | ninf => ninf
  | nan => nan

end PyFloat

/-- A transposed financial statement DataFrame: named columns of period values
(most recent first) plus the number of period rows, as seen by len(df). -/
structure Statement where
  items : List (String × List PyFloat)
  nrows : Nat

namespace Statement

/-- The column a line-item name selects: df.get(name, [np.nan]) returns the
named column when present and the default one-element list otherwise. -/
def col (s : Statement) (name : String) : List PyFloat :=
  match s.items.find? (fun p => p.1 == name) with
  | some p => p.2
  | none => [PyFloat.nan]

/-- df.get(name, [np.nan])[i]: positional indexing into the selected column;
an out-of-range index raises (IndexError / KeyError), modelled as none. -/
def getItem (s : Statement) (name : String) (i : Nat) : Option PyFloat :=
  (s.col name).get? i

/-- Every column present in the statement is nonempty (true of any DataFrame
with at least one period row). -/
def colsNonempty (s : Statement) : Prop :=
  ∀ p ∈ s.items, p.2 ≠ []

end Statement

/-- The quote snapshot stock.info: a flat string-keyed map of valuation
figures; info.get(key, np.nan) yields NaN when the key is absent. -/
def infoGet (info : List (String × PyFloat)) (key : String) : PyFloat :=
  match info.find? (fun p => p.1 == key) with
  | some p => p.2
  | none => PyFloat.nan

/-- Kleisli sequencing of fallible computations: the second computation runs
only when the first did not raise (a plain bind on Option, defined here so
that the pipeline below stays a first-order term). -/
def obind {a b : Type} : Option a → (a → Option b) → Option b
  | Option.none, _ => Option.none
  | Option.some v, f => f v

/-! ## Ratio Engine (src/app.py lines 42-70)

Each ratio mirrors one line of the source, including its Python truthiness
guard on the denominator: a present zero denominator is filtered to NaN by the
guard, while a NaN denominator is truthy and flows into the division, which
then yields NaN. -/

/-- gross_profit_margin = (gross_profit / revenue) * 100 if revenue else nan -/
def gross_profit_margin (gross_profit revenue : PyFloat) : PyFloat :=
  if revenue.toBool then (gross_profit.div revenue).mul100 else PyFloat.nan

/-- operating_profit_margin = (operating_income / revenue) * 100 if revenue else nan -/
def operating_profit_margin (operating_income revenue : PyFloat) : PyFloat :=
  if revenue.toBool then (operating_income.div revenue).mul100 else PyFloat.nan

/-- net_profit_margin = (net_income / revenue) * 100 if revenue else nan -/
def net_profit_margin (net_income revenue : PyFloat) : PyFloat :=
  if revenue.toBool then (net_income.div revenue).mul100 else PyFloat.nan

/-- roe = (net_income / equity) * 100 if equity else nan -/
def roe (net_income equity : PyFloat) : PyFloat :=
  if equity.toBool then (net_income.div equity).mul100 else PyFloat.nan

/-- roa = (net_income / total_assets) * 100 if total_assets else nan -/
def roa (net_income total_assets : PyFloat) : PyFloat :=
  if total_assets.toBool then (net_income.div total_assets).mul100 else PyFloat.nan

/-- current_ratio = current_assets / current_liabilities if current_liabilities else nan -/
def current_ratio (current_assets current_liabilities : PyFloat) : PyFloat :=
  if current_liabilities.toBool then current_assets.div current_liabilities
  else PyFloat.nan

/-- quick_ratio = (current_assets - inventory) / current_liabilities
if current_liabilities else nan -/
def quick_ratio (current_assets inventory current_liabilities : PyFloat) : PyFloat :=
  if current_liabilities.toBool then (current_assets.sub inventory).div current_liabilities
  else PyFloat.nan

/-- debt_to_equity = total_liabilities / equity if equity else nan -/
def debt_to_equity (total_liabilities equity : PyFloat) : PyFloat :=
  if equity.toBool then total_liabilities.div equity else PyFloat.nan

/-- debt_to_assets = total_liabilities / total_assets if total_assets else nan -/
def debt_to_assets (total_liabilities total_assets : PyFloat) : PyFloat :=
  if total_assets.toBool then total_liabilities.div total_assets else PyFloat.nan

/-- asset_turnover = revenue / total_assets if total_assets else nan -/
def asset_turnover (revenue total_assets : PyFloat) : PyFloat :=
  if total_assets.toBool then revenue.div total_assets else PyFloat.nan

/-- inventory_turnover = cogs / inventory if inventory else nan -/
def inventory_turnover (cogs inventory : PyFloat) : PyFloat :=
  if inventory.toBool then cogs.div inventory else PyFloat.nan

/-- receivables_turnover = revenue / accounts_receivable if accounts_receivable else nan -/
def receivables_turnover (revenue accounts_receivable : PyFloat) : PyFloat :=
  if accounts_receivable.toBool then revenue.div accounts_receivable else PyFloat.nan

/-- free_cash_flow = operating_cash_flow - capex if operating_cash_flow and capex
else nan.  Python and makes the guard the conjunction of both truthiness
tests. -/
def free_cash_flow (operating_cash_flow capex : PyFloat) : PyFloat :=
  if operating_cash_flow.toBool && capex.toBool then operating_cash_flow.sub capex
  else PyFloat.nan

/-- One growth line (src/app.py lines 73-77):
((cur - item[1]) / item[1]) * 100 if len(statement) > 1 else nan.
The guard tests only the row count; when it passes, the prior-period lookup
item[1] is performed, and raises (none) when the line item is absent, because
the default list [nan] has no index 1. -/
def growthCalc (s : Statement) (name : String) (cur : PyFloat) : Option PyFloat :=
  if s.nrows > 1 then
    obind (s.getItem name 1) fun prior =>
    some (((cur.sub prior).div prior).mul100)
  else
    some PyFloat.nan

/-- Price performance (src/app.py lines 80-82):
((close[-1] - close[0]) / close[0]) * 100; indexing an empty series raises. -/
def pricePerf (closes : List PyFloat) : Option PyFloat :=
  match closes with
  | [] => none
  | c :: cs => some (((((c :: cs).getLast (List.cons_ne_nil c cs)).sub c).div c).mul100)

/-- The current-ratio line fetches Current Assets and Current Liabilities
inline; the guard value is evaluated first, and the operand fetches happen
only when the guard is truthy. -/
def currentRatioStep (bs : Statement) (guardVal : PyFloat) : Option PyFloat :=
  if guardVal.toBool then
    obind (bs.getItem "Current Assets" 0) fun ca =>
    obind (bs.getItem "Current Liabilities" 0) fun cl =>
    some (current_ratio ca cl)
  else some PyFloat.nan

/-- Quick-ratio variant of the same inline fetch block. -/
def quickRatioStep (bs : Statement) (inventory guardVal : PyFloat) : Option PyFloat :=
  if guardVal.toBool then
    obind (bs.getItem "Current Assets" 0) fun ca =>
    obind (bs.getItem "Current Liabilities" 0) fun cl =>
    some (quick_ratio ca inventory cl)
  else some PyFloat.nan

/-- The free-cash-flow line: Python and short-circuits, so the Capital
Expenditures fetch happens only when operating cash flow is truthy. -/
def freeCashFlowStep (cf : Statement) (operating_cash_flow : PyFloat) : Option PyFloat :=
  if operating_cash_flow.toBool then
    obind (cf.getItem "Capital Expenditures" 0) fun capex =>
    some (free_cash_flow operating_cash_flow capex)
  else some PyFloat.nan

/-- A value of the per-symbol result dictionary: the symbol string or a number. -/
inductive RVal where
  | str (s : String)
  | fl (f : PyFloat)
deriving DecidableEq, Repr

/-- The dictionary returned by get_financial_data for one symbol. -/
abbrev FinRecord := List (String × RVal)

/-- The external data fetched for one symbol: the three transposed statements,
the stock.info quote snapshot, and the 1-year Close price series (ascending by
date).  The quarterly income statement is fetched by the source but never
read, so it is not modelled. -/
structure Inputs where
  incomeStatement : Statement
  balanceSheet : Statement
  cashflow : Statement
  info : List (String × PyFloat)
  priceHistory : List PyFloat

/-- get_financial_data (src/app.py lines 16-95): extract line items
defensively, compute the ratio set, the five growth lines and the price
performance, and return the seven-key record; any raised exception is caught
and the function returns None (here: none). -/
def get_financial_data (symbol : String) (inp : Inputs) : Option FinRecord :=
  obind (inp.incomeStatement.getItem "Total Revenue" 0) fun revenue =>
  obind (inp.incomeStatement.getItem "Cost Of Revenue" 0) fun cogs =>
  obind (inp.incomeStatement.getItem "Gross Profit" 0) fun gross_profit =>
  obind (inp.incomeStatement.getItem "Operating Income" 0) fun operating_income =>
  obind (inp.incomeStatement.getItem "Net Income" 0) fun net_income =>
  obind (inp.balanceSheet.getItem "Cash And Cash Equivalents" 0) fun _cash_equivalents =>
  obind (inp.balanceSheet.getItem "Accounts Receivable" 0) fun accounts_receivable =>
  obind (inp.balanceSheet.getItem "Inventory" 0) fun inventory =>
  obind (inp.balanceSheet.getItem "Property, Plant and Equipment" 0) fun _pp_and_e =>
  obind (inp.balanceSheet.getItem "Goodwill" 0) fun _goodwill =>
  obind (inp.balanceSheet.getItem "Total Assets" 0) fun total_assets =>
  obind (inp.balanceSheet.getItem "Total Liabilities Net Minority Interest" 0) fun total_liabilities =>
  obind (inp.balanceSheet.getItem "Total Equity Gross Minority Interest" 0) fun equity =>
  let _gpm := gross_profit_margin gross_profit revenue
  let _opm := operating_profit_margin operating_income revenue
  let _npm := net_profit_margin net_income revenue
  let _roe := roe net_income equity
  let _roa := roa net_income total_assets
  obind (inp.balanceSheet.getItem "Current Liabilities" 0) fun clGuard =>
  obind (currentRatioStep inp.balanceSheet clGuard) fun _current_ratio =>
  obind (quickRatioStep inp.balanceSheet inventory clGuard) fun _quick_ratio =>
  let _debt_to_equity := debt_to_equity total_liabilities equity
  let _debt_to_assets := debt_to_assets total_liabilities total_assets
  let _asset_turnover := asset_turnover revenue total_assets
  let _inventory_turnover := inventory_turnover cogs inventory
  let _receivables_turnover := receivables_turnover revenue accounts_receivable
  let _pe := infoGet inp.info "trailingPE"
  let _pb := infoGet inp.info "priceToBook"
  let _dividend_yield := infoGet inp.info "dividendYield"
  obind (inp.cashflow.getItem "Operating Cash Flow" 0) fun operating_cash_flow =>
  obind (freeCashFlowStep inp.cashflow operating_cash_flow) fun _free_cash_flow =>
  obind (growthCalc inp.incomeStatement "Total Revenue" revenue) fun revenue_growth =>
  obind (growthCalc inp.incomeStatement "Cost Of Revenue" cogs) fun _cogs_growth =>
  obind (growthCalc inp.incomeStatement "Gross Profit" gross_profit) fun gross_profit_growth =>
  obind (growthCalc inp.incomeStatement "Operating Income" operating_income) fun operating_income_growth =>
  obind (growthCalc inp.incomeStatement "Net Income" net_income) fun net_income_growth =>
  obind (pricePerf inp.priceHistory) fun price_performance_30d =>
  obind (pricePerf inp.priceHistory) fun price_performance_1y =>
  some [("Symbol", RVal.str symbol),
        ("Revenue Growth", RVal.fl revenue_growth),
        ("Gross Profit Growth", RVal.fl gross_profit_growth),
        ("Operating Income Growth", RVal.fl operating_income_growth),
        ("Net Income Growth", RVal.fl net_income_growth),
        ("30 Day Price Performance", RVal.fl price_performance_30d),
        ("1 Year Price Performance", RVal.fl price_performance_1y)]

/-- The report loop (src/app.py lines 176-179): one fetch per symbol, skipping
a symbol entirely when get_financial_data returned None. -/
def buildResults (fetchFn : String → Inputs) (symbols : List String) : List FinRecord :=
  symbols.filterMap (fun s => get_financial_data s (fetchFn s))

/-- The Revenue Growth column of a record, as used by sort_values. -/
def revenueGrowthKey (r : FinRecord) : PyFloat :=
  match r.lookup "Revenue Growth" with
  | some (RVal.fl f) => f
  | _ => PyFloat.nan

/-- Sort-key order used by sort_values(ascending=False): a total Bool-valued
comparison in which NaN is the least element (pandas places NaN last under the
default na_position), negative infinity next, then the rationals, then
positive infinity. -/
def PyFloat.sortLE : PyFloat → PyFloat → Bool
  | nan, _ => true
  | _, nan => false
  | ninf, _ => true
  | _, ninf => false
  | num a, num b => a ≤ b
  | num _, inf => true
  | inf, num _ => false
  | inf, inf => true

/-- Record a may be placed before record b in the descending Revenue Growth
order. -/
def rgDescBefore (a b : FinRecord) : Prop :=
  PyFloat.sortLE (revenueGrowthKey b) (revenueGrowthKey a) = true

instance : DecidableRel rgDescBefore := fun a b => by
  unfold rgDescBefore; infer_instance

instance : IsTotal FinRecord rgDescBefore :=
  ⟨by
    intro a b
    show PyFloat.sortLE (revenueGrowthKey b) (revenueGrowthKey a) = true ∨
      PyFloat.sortLE (revenueGrowthKey a) (revenueGrowthKey b) = true
    cases revenueGrowthKey b <;> cases revenueGrowthKey a <;>
      simp [PyFloat.sortLE] <;> exact le_total _ _⟩

instance : IsTrans FinRecord rgDescBefore :=
  ⟨by
    intro a b c hab hbc
    show PyFloat.sortLE (revenueGrowthKey c) (revenueGrowthKey a) = true
    unfold rgDescBefore at hab hbc
    revert hab hbc
    cases revenueGrowthKey a <;> cases revenueGrowthKey b <;>
        cases revenueGrowthKey c <;>
      simp [PyFloat.sortLE] <;>
      exact fun h1 h2 => le_trans h2 h1⟩

/-- Top-5 view (src/app.py lines 122 and 186):
results.sort_values(by=Revenue Growth, ascending=False).head(5). -/
def topStocksRevenueGrowth (results : List FinRecord) : List FinRecord :=
  (List.insertionSort rgDescBefore results).take 5

/-! ## Concrete inputs used by witnesses and counterexamples -/

/-- Inputs in which every modelled line item is absent, each statement has one
period row, and the price history holds a single NaN close: every field of the
resulting record is NaN, and nothing faults. -/
def nanInputs : Inputs :=
  ⟨⟨[], 1⟩, ⟨[], 1⟩, ⟨[], 1⟩, [], [PyFloat.nan]⟩

/-- The record get_financial_data produces for symbol W9 on nanInputs. -/
def w9Record : FinRecord :=
  [("Symbol", RVal.str "W9"),
   ("Revenue Growth", RVal.fl PyFloat.nan),
   ("Gross Profit Growth", RVal.fl PyFloat.nan),
   ("Operating Income Growth", RVal.fl PyFloat.nan),
   ("Net Income Growth", RVal.fl PyFloat.nan),
   ("30 Day Price Performance", RVal.fl PyFloat.nan),
   ("1 Year Price Performance", RVal.fl PyFloat.nan)]

/-- The record get_financial_data produces for symbol W10 on nanInputs. -/
def w10Record : FinRecord :=
  [("Symbol", RVal.str "W10"),
   ("Revenue Growth", RVal.fl PyFloat.nan),
   ("Gross Profit Growth", RVal.fl PyFloat.nan),
   ("Operating Income Growth", RVal.fl PyFloat.nan),
   ("Net Income Growth", RVal.fl PyFloat.nan),
   ("30 Day Price Performance", RVal.fl PyFloat.nan),
   ("1 Year Price Performance", RVal.fl PyFloat.nan)]

/-- Inputs whose income statement has two period rows but no Total Revenue
column (nor any other modelled line item): the prior-period growth lookup
raises and the symbol hard-faults. -/
def c2Inputs : Inputs :=
  ⟨⟨[], 2⟩, ⟨[], 2⟩, ⟨[], 2⟩, [], [PyFloat.num 1, PyFloat.num 2]⟩

/-- A two-period income statement whose prior-period Total Revenue is a
present zero. -/
def c3Statement : Statement :=
  ⟨[("Total Revenue", [PyFloat.num 110, PyFloat.num 0])], 2⟩

/-- A two-period income statement with Total Revenue growing from 100 to 110. -/
def c3wStatement : Statement :=
  ⟨[("Total Revenue", [PyFloat.num 110, PyFloat.num 100])], 2⟩

/-- Inputs with an empty 1-year price history and an otherwise unremarkable
single-period set of statements. -/
def c4Inputs : Inputs :=
  ⟨⟨[], 1⟩, ⟨[], 1⟩, ⟨[], 1⟩, [], []⟩

/-- A second empty-price-history input set (zero period rows everywhere). -/
def c4wInputs : Inputs :=
  ⟨⟨[], 0⟩, ⟨[], 0⟩, ⟨[], 0⟩, [], []⟩

/-! ## Basic lemmas -/

theorem PyFloat.sub_nan (x : PyFloat) : x.sub nan = nan := by cases x <;> rfl

theorem PyFloat.nan_sub (x : PyFloat) : PyFloat.nan.sub x = nan := by cases x <;> rfl

theorem PyFloat.div_nan (x : PyFloat) : x.div nan = nan := by cases x <;> rfl

theorem PyFloat.nan_div (x : PyFloat) : PyFloat.nan.div x = nan := by cases x <;> rfl

theorem PyFloat.mul100_nan : PyFloat.nan.mul100 = nan := rfl

attribute [simp] PyFloat.sub_nan PyFloat.nan_sub PyFloat.div_nan PyFloat.nan_div
  PyFloat.mul100_nan

@[simp] theorem obind_none {a b : Type} (f : a → Option b) :
    obind Option.none f = Option.none := rfl

@[simp] theorem obind_some {a b : Type} (v : a) (f : a → Option b) :
    obind (Option.some v) f = f v := rfl

theorem obind_eq_some {a b : Type} {x : Option a} {f : a → Option b} {r : b} :
    obind x f = some r ↔ ∃ v, x = some v ∧ f v = some r := by
  cases x <;> simp [obind]

theorem Statement.getItem0_ok {s : Statement} (h : s.colsNonempty) (name : String) :
    ∃ v, s.getItem name 0 = some v := by
  unfold getItem col
  cases hf : s.items.find? (fun p => p.1 == name) with
  | none => exact ⟨PyFloat.nan, rfl⟩
  | some p =>
    have hne := h p (List.mem_of_find?_eq_some hf)
    cases hp : p.2 with
    | nil => exact absurd hp hne
    | cons a t =>
      refine ⟨a, ?_⟩
      show p.2.get? 0 = some a
      rw [hp]
      rfl

/-! ## Structure of a successfully produced record -/

/-- Any record that get_financial_data actually returns has exactly the seven
keys of the source dictionary, in order, and its two price-performance fields
carry results of the same pricePerf computation. -/
theorem gfd_some_shape (sym : String) (inp : Inputs) (r : FinRecord)
    (h : get_financial_data sym inp = some r) :
    ∃ rg gg og ng perf,
      r = [("Symbol", RVal.str sym),
           ("Revenue Growth", RVal.fl rg),
           ("Gross Profit Growth", RVal.fl gg),
           ("Operating Income Growth", RVal.fl og),
           ("Net Income Growth", RVal.fl ng),
           ("30 Day Price Performance", RVal.fl perf),
           ("1 Year Price Performance", RVal.fl perf)] := by
  unfold get_financial_data at h
  simp only [obind_eq_some, Option.some.injEq] at h
  obtain ⟨v1, -, v2, -, v3, -, v4, -, v5, -, v6, -, v7, -, v8, -, v9, -, v10, -,
    v11, -, v12, -, v13, -, v14, -, v15, -, v16, -, v17, -, v18, -,
    rg, -, cg, -, gg, -, og, -, ng, -, p30, hp30, p1y, hp1y, hr⟩ := h
  rw [hp30] at hp1y
  obtain rfl := Option.some.inj hp1y
  exact ⟨rg, gg, og, ng, p30, hr.symm⟩

/-- Under well-formed statements (nonempty present columns) and a growth guard
that short-circuits (at most one income period row), get_financial_data
succeeds exactly when the price-performance computation does. -/
theorem gfd_isSome (sym : String) (inp : Inputs)
    (h1 : inp.incomeStatement.colsNonempty) (h2 : inp.balanceSheet.colsNonempty)
    (h3 : inp.cashflow.colsNonempty) (h4 : inp.incomeStatement.nrows ≤ 1) :
    (get_financial_data sym inp).isSome = (pricePerf inp.priceHistory).isSome := by
  obtain ⟨v1, e1⟩ := Statement.getItem0_ok h1 "Total Revenue"
  obtain ⟨v2, e2⟩ := Statement.getItem0_ok h1 "Cost Of Revenue"
  obtain ⟨v3, e3⟩ := Statement.getItem0_ok h1 "Gross Profit"
  obtain ⟨v4, e4⟩ := Statement.getItem0_ok h1 "Operating Income"
  obtain ⟨v5, e5⟩ := Statement.getItem0_ok h1 "Net Income"
  obtain ⟨w1, f1⟩ := Statement.getItem0_ok h2 "Cash And Cash Equivalents"
  obtain ⟨w2, f2⟩ := Statement.getItem0_ok h2 "Accounts Receivable"
  obtain ⟨w3, f3⟩ := Statement.getItem0_ok h2 "Inventory"
  obtain ⟨w4, f4⟩ := Statement.getItem0_ok h2 "Property, Plant and Equipment"
  obtain ⟨w5, f5⟩ := Statement.getItem0_ok h2 "Goodwill"
  obtain ⟨w6, f6⟩ := Statement.getItem0_ok h2 "Total Assets"
  obtain ⟨w7, f7⟩ := Statement.getItem0_ok h2 "Total Liabilities Net Minority Interest"
  obtain ⟨w8, f8⟩ := Statement.getItem0_ok h2 "Total Equity Gross Minority Interest"
  obtain ⟨w9, f9⟩ := Statement.getItem0_ok h2 "Current Liabilities"
  obtain ⟨w10, f10⟩ := Statement.getItem0_ok h2 "Current Assets"
  obtain ⟨u1, k1⟩ := Statement.getItem0_ok h3 "Operating Cash Flow"
  obtain ⟨u2, k2⟩ := Statement.getItem0_ok h3 "Capital Expenditures"
  have hg : ¬ (1 < inp.incomeStatement.nrows) := by omega
  unfold get_financial_data
  by_cases hcl : w9.toBool <;> by_cases hocf : u1.toBool <;>
      cases hpp : pricePerf inp.priceHistory <;>
    simp [e1, e2, e3, e4, e5, f1, f2, f3, f4, f5, f6, f7, f8, f9, f10, k1, k2,
      currentRatioStep, quickRatioStep, freeCashFlowStep, growthCalc, hg, hcl,
      hocf, hpp]

/-- With records successfully produced, the report loop length bookkeeping:
kept records plus skipped symbols account for every input symbol. -/
theorem length_filterMap_add_countP {a b : Type} (f : a → Option b) (l : List a) :
    (l.filterMap f).length + l.countP (fun x => (f x).isNone) = l.length := by
  induction l with
  | nil => rfl
  | cons x t ih =>
    cases hfx : f x <;>
      simp [List.filterMap_cons, List.countP_cons, hfx] <;> omega

/-! ## Claim C1: division policy of the Ratio Engine -/

/-- C1: for every extracted-fields input, each of the twelve ratios computed
by the Ratio Engine evaluates to NaN (the unavailable marker) whenever its
denominator is zero or unavailable (NaN) — never a fault, never an infinity,
never a silent zero; in particular equity = 0 with net_income = 100 yields
ROE = NaN. -/
theorem C1_division_policy (x y d : PyFloat)
    (h : d = PyFloat.num 0 ∨ d = PyFloat.nan) :
    gross_profit_margin x d = PyFloat.nan ∧
    operating_profit_margin x d = PyFloat.nan ∧
    net_profit_margin x d = PyFloat.nan ∧
    roe x d = PyFloat.nan ∧
    roa x d = PyFloat.nan ∧
    current_ratio x d = PyFloat.nan ∧
    quick_ratio x y d = PyFloat.nan ∧
    debt_to_equity x d = PyFloat.nan ∧
    debt_to_assets x d = PyFloat.nan ∧
    asset_turnover x d = PyFloat.nan ∧
    inventory_turnover x d = PyFloat.nan ∧
    receivables_turnover x d = PyFloat.nan := by
  rcases h with rfl | rfl <;>
    simp [gross_profit_margin, operating_profit_margin, net_profit_margin, roe, roa,
      current_ratio, quick_ratio, debt_to_equity, debt_to_assets, asset_turnover,
      inventory_turnover, receivables_turnover, PyFloat.toBool]

/-- C1 witness: the spec example, equity = 0 and net_income = 100, gives
ROE = NaN. -/
theorem C1_witness : roe (PyFloat.num 100) (PyFloat.num 0) = PyFloat.nan :=
  (C1_division_policy (PyFloat.num 100) (PyFloat.num 100) (PyFloat.num 0)
    (Or.inl rfl)).2.2.2.1

/-! ## Claim C2: missing line items and hard faults -/

/-- C2 counterexample: with two income-statement period rows and Total Revenue
(and every other modelled line item) absent, the claim says the record is
still produced with the affected fields unavailable; the code instead raises
IndexError at the prior-period growth lookup and returns None, so no record at
all is produced. -/
theorem C2_counterexample : get_financial_data "TEST" c2Inputs = none := rfl

/-- C2 amended: extraction and computation complete without raising, with
missing line items marked unavailable, whenever the income statement has at
most one period row (so the growth branch never indexes the default list);
with two or more period rows a missing income-statement line item is a hard
fault and the symbol's record is dropped (the counterexample above). -/
theorem C2_amended (sym : String) (inp : Inputs)
    (h1 : inp.incomeStatement.colsNonempty) (h2 : inp.balanceSheet.colsNonempty)
    (h3 : inp.cashflow.colsNonempty) (h4 : inp.incomeStatement.nrows ≤ 1)
    (h5 : inp.priceHistory ≠ []) :
    ∃ r, get_financial_data sym inp = some r := by
  apply Option.isSome_iff_exists.mp
  rw [gfd_isSome sym inp h1 h2 h3 h4]
  obtain ⟨c, cs, hcc⟩ := List.exists_cons_of_ne_nil h5
  rw [hcc]
  rfl

/-- C2 witness: on inputs with one period row and every modelled line item
absent, a record is produced. -/
theorem C2_witness : ∃ r, get_financial_data "W2" nanInputs = some r :=
  C2_amended "W2" nanInputs
    (fun p hp => absurd hp (List.not_mem_nil p))
    (fun p hp => absurd hp (List.not_mem_nil p))
    (fun p hp => absurd hp (List.not_mem_nil p))
    (Nat.le_refl 1)
    (List.cons_ne_nil PyFloat.nan [])

/-! ## Claim C3: growth denominators -/

/-- C3 counterexample: with a present prior-period Total Revenue of zero, the
claim says growth is unavailable; the code divides by the zero and produces
positive infinity. -/
theorem C3_counterexample :
    growthCalc c3Statement "Total Revenue" (PyFloat.num 110) = some PyFloat.inf ∧
    PyFloat.inf ≠ PyFloat.nan := by
  constructor
  · have hgi : c3Statement.getItem "Total Revenue" 1 = some (PyFloat.num 0) := rfl
    have hn : c3Statement.nrows = 2 := rfl
    norm_num [growthCalc, hgi, hn, PyFloat.sub, PyFloat.div, PyFloat.mul100]
  · intro h
    exact PyFloat.noConfusion h

/-- C3 amended: with at least two period rows, a growth line is NaN when the
prior-period value is NaN; but a present zero prior with positive current
value yields positive infinity (numpy division by zero), not the unavailable
marker; and a nonzero rational prior gives
(current - prior) / prior * 100 exactly. -/
theorem C3_amended (s : Statement) (name : String) (cur : PyFloat) (c p : ℚ)
    (hn : 1 < s.nrows) :
    (s.getItem name 1 = some PyFloat.nan →
      growthCalc s name cur = some PyFloat.nan) ∧
    (s.getItem name 1 = some (PyFloat.num 0) → cur = PyFloat.num c → 0 < c →
      growthCalc s name cur = some PyFloat.inf) ∧
    (s.getItem name 1 = some (PyFloat.num p) → p ≠ 0 → cur = PyFloat.num c →
      growthCalc s name cur = some (PyFloat.num ((c - p) / p * 100))) := by
  refine ⟨?_, ?_, ?_⟩
  · intro h
    simp [growthCalc, hn, h]
  · intro h hc hpos
    subst hc
    norm_num [growthCalc, hn, h, PyFloat.sub, PyFloat.div, PyFloat.mul100, hpos]
  · intro h hp hc
    subst hc
    norm_num [growthCalc, hn, h, PyFloat.sub, PyFloat.div, PyFloat.mul100, hp]

/-- C3 witness: Total Revenue going from 100 to 110 has growth 10 percent. -/
theorem C3_witness :
    growthCalc c3wStatement "Total Revenue" (PyFloat.num 110)
      = some (PyFloat.num 10) := by
  have h := (C3_amended c3wStatement "Total Revenue" (PyFloat.num 110) 110 100
    (by decide)).2.2 rfl (by norm_num) rfl
  rw [h]
  norm_num

/-! ## Claim C4: price performance on an empty series -/

/-- C4 counterexample: with an empty 1-year price history the claim says the
record is still produced with the price-performance field unavailable; the
code instead raises at close[-1] and the whole symbol is dropped, producing no
record. -/
theorem C4_counterexample : get_financial_data "TEST" c4Inputs = none := rfl

/-- C4 amended: an empty price series is a hard fault — no record at all is
produced for the symbol (given the earlier stages succeed); a non-empty series
gives ((last - first) / first) * 100, the x100 percentage convention. -/
theorem C4_amended :
    (∀ (sym : String) (inp : Inputs), inp.incomeStatement.colsNonempty →
      inp.balanceSheet.colsNonempty → inp.cashflow.colsNonempty →
      inp.incomeStatement.nrows ≤ 1 → inp.priceHistory = [] →
      get_financial_data sym inp = none) ∧
    (∀ (l : List PyFloat) (first last : PyFloat), l.head? = some first →
      l.getLast? = some last →
      pricePerf l = some (((last.sub first).div first).mul100)) ∧
    pricePerf [] = none := by
  refine ⟨?_, ?_, rfl⟩
  · intro sym inp h1 h2 h3 h4 h5
    have h := gfd_isSome sym inp h1 h2 h3 h4
    rw [h5] at h
    cases hg : get_financial_data sym inp with
    | none => rfl
    | some r =>
      rw [hg] at h
      simp [pricePerf] at h
  · intro l first last hh hl
    cases l with
    | nil => cases hh
    | cons c cs =>
      have hc : c = first := Option.some.inj hh
      subst hc
      have hlast : (c :: cs).getLast (List.cons_ne_nil c cs) = last := by
        rw [List.getLast?_eq_getLast (c :: cs) (List.cons_ne_nil c cs)] at hl
        exact Option.some.inj hl
      simp [pricePerf, hlast]

/-- C4 witness: an empty series on concrete inputs produces no record, and the
spec example series 100 then 110 gives performance 10 (percent). -/
theorem C4_witness :
    get_financial_data "W4" c4wInputs = none ∧
    pricePerf [PyFloat.num 100, PyFloat.num 110] = some (PyFloat.num 10) := by
  constructor
  · exact C4_amended.1 "W4" c4wInputs
      (fun p hp => absurd hp (List.not_mem_nil p))
      (fun p hp => absurd hp (List.not_mem_nil p))
      (fun p hp => absurd hp (List.not_mem_nil p))
      (Nat.zero_le 1) rfl
  · have h := C4_amended.2.1 [PyFloat.num 100, PyFloat.num 110]
      (PyFloat.num 100) (PyFloat.num 110) rfl rfl
    rw [h]
    norm_num [PyFloat.sub, PyFloat.div, PyFloat.mul100]

/-! ## Claim C5: free cash flow -/

/-- C5 counterexample: the claim says free cash flow equals the difference
whenever both operands are available, so operating_cash_flow = 500 with
capex = 0 should give 500; the code's truthiness guard filters the present
zero operand and yields NaN instead. -/
theorem C5_counterexample :
    free_cash_flow (PyFloat.num 500) (PyFloat.num 0) = PyFloat.nan ∧
    PyFloat.nan ≠ PyFloat.num (500 - 0) := by
  constructor
  · simp [free_cash_flow, PyFloat.toBool]
  · intro h
    exact PyFloat.noConfusion h

/-- C5 amended: free cash flow is NaN when either operand is NaN or a present
zero (both are treated alike by the truthiness guard); when both operands are
nonzero rationals it equals operating_cash_flow - capex. -/
theorem C5_amended (a b : ℚ) (x : PyFloat) (ha : a ≠ 0) (hb : b ≠ 0) :
    free_cash_flow (PyFloat.num a) (PyFloat.num b) = PyFloat.num (a - b) ∧
    free_cash_flow PyFloat.nan x = PyFloat.nan ∧
    free_cash_flow x PyFloat.nan = PyFloat.nan ∧
    free_cash_flow (PyFloat.num 0) x = PyFloat.nan ∧
    free_cash_flow x (PyFloat.num 0) = PyFloat.nan := by
  refine ⟨?_, ?_, ?_, ?_, ?_⟩
  · simp [free_cash_flow, PyFloat.toBool, ha, hb, PyFloat.sub]
  · cases x <;> simp [free_cash_flow, PyFloat.toBool]
  · cases x <;> simp [free_cash_flow, PyFloat.toBool]
  · simp [free_cash_flow, PyFloat.toBool]
  · simp [free_cash_flow, PyFloat.toBool]

/-- C5 witness: the spec example, operating_cash_flow = 500 and capex = 200,
gives free_cash_flow = 300. -/
theorem C5_witness :
    free_cash_flow (PyFloat.num 500) (PyFloat.num 200) = PyFloat.num 300 := by
  have h := (C5_amended 500 200 PyFloat.nan (by norm_num) (by norm_num)).1
  rw [h]
  norm_num

/-! ## Claim C6: the ResultSet skips exactly the hard-faulted symbols -/

/-- C6: the ResultSet built by the report loop has length equal to the number
of input symbols minus the number of hard-faulted symbols (hence at most the
input count), and every record it contains is the complete successful result
of some input symbol — a hard-faulted symbol contributes nothing. -/
theorem C6_resultset (fetchFn : String → Inputs) (symbols : List String) :
    (buildResults fetchFn symbols).length
      = symbols.length
        - symbols.countP (fun s => (get_financial_data s (fetchFn s)).isNone) ∧
    (buildResults fetchFn symbols).length ≤ symbols.length ∧
    ∀ r ∈ buildResults fetchFn symbols,
      ∃ s ∈ symbols, get_financial_data s (fetchFn s) = some r := by
  have h := length_filterMap_add_countP
    (fun s => get_financial_data s (fetchFn s)) symbols
  refine ⟨by unfold buildResults; omega, by unfold buildResults; omega, ?_⟩
  intro r hr
  rw [buildResults, List.mem_filterMap] at hr
  obtain ⟨s, hs, hgs⟩ := hr
  exact ⟨s, hs, hgs⟩

/-- C6 witness: of two symbols where the second hard-faults on an empty price
history, exactly one record survives. -/
theorem C6_witness :
    (buildResults (fun s => if s = "A" then nanInputs else c4Inputs)
      ["A", "B"]).length = 1 := by
  have h := (C6_resultset (fun s => if s = "A" then nanInputs else c4Inputs)
    ["A", "B"]).1
  rw [h]
  rfl

/-! ## Claim C7: growth needs at least two periods -/

/-- C7: when the statement holds exactly one period row, every growth line
evaluates to NaN regardless of the period's value. -/
theorem C7_single_period (s : Statement) (name : String) (cur : PyFloat)
    (h : s.nrows = 1) :
    growthCalc s name cur = some PyFloat.nan := by
  simp [growthCalc, h]

/-- C7 witness: a one-period Total Revenue line has NaN growth. -/
theorem C7_witness :
    growthCalc ⟨[("Total Revenue", [PyFloat.num 7])], 1⟩ "Total Revenue"
      (PyFloat.num 7) = some PyFloat.nan :=
  C7_single_period ⟨[("Total Revenue", [PyFloat.num 7])], 1⟩ "Total Revenue"
    (PyFloat.num 7) rfl

/-! ## Claim C8: the top-5 view -/

/-- C8: the top-N view sorted descending by Revenue Growth (N = 5 in the
program) is non-increasing in the revenue-growth sort key and has length
min(5, number of records). -/
theorem C8_topN (results : List FinRecord) :
    (topStocksRevenueGrowth results).length = min 5 results.length ∧
    (topStocksRevenueGrowth results).Pairwise rgDescBefore := by
  constructor
  · simp [topStocksRevenueGrowth, List.length_take, List.length_insertionSort]
  · exact List.Pairwise.sublist (List.take_sublist 5 _)
      (List.sorted_insertionSort rgDescBefore results)

/-! ## Claims C9 and C10: shape of the produced record -/

/-- C9: in every record the pipeline produces, the 30 Day Price Performance
field equals the 1 Year Price Performance field, because both are computed by
the same formula over the same 1-year price history. -/
theorem C9_price_fields_equal (sym : String) (inp : Inputs) (r : FinRecord)
    (h : get_financial_data sym inp = some r) :
    r.lookup "30 Day Price Performance" = r.lookup "1 Year Price Performance" := by
  obtain ⟨rg, gg, og, ng, perf, rfl⟩ := gfd_some_shape sym inp r h
  rfl

/-- C10: every record in the ResultSet carries exactly the seven keys Symbol,
Revenue Growth, Gross Profit Growth, Operating Income Growth, Net Income
Growth, 30 Day Price Performance and 1 Year Price Performance; no other
computed quantity appears. -/
theorem C10_record_keys (sym : String) (inp : Inputs) (r : FinRecord)
    (h : get_financial_data sym inp = some r) :
    r.map Prod.fst = ["Symbol", "Revenue Growth", "Gross Profit Growth",
      "Operating Income Growth", "Net Income Growth", "30 Day Price Performance",
      "1 Year Price Performance"] := by
  obtain ⟨rg, gg, og, ng, perf, rfl⟩ := gfd_some_shape sym inp r h
  rfl

/-- C9 witness: the two price-performance fields agree on a concrete run. -/
theorem C9_witness :
    w9Record.lookup "30 Day Price Performance"
      = w9Record.lookup "1 Year Price Performance" :=
  C9_price_fields_equal "W9" nanInputs w9Record rfl

/-- C10 witness: the key list of a concrete run is exactly the seven keys. -/
theorem C10_witness :
    w10Record.map Prod.fst = ["Symbol", "Revenue Growth", "Gross Profit Growth",
      "Operating Income Growth", "Net Income Growth", "30 Day Price Performance",
      "1 Year Price Performance"] :=
  C10_record_keys "W10" nanInputs w10Record rfl
